import Mathlib

/-!
Verification development for the HDF5 container image codec
(`itkHDF5ContainerImageIO.cxx` / `.h`).

The C++ core is shallowly embedded as executable Lean functions.  Machine
integers are modelled as `Int`/`Nat` with explicit wrapping where the source
performs a narrowing cast.  `double` values that the codec merely moves
around (origin, spacing, direction entries) are modelled as `Rat`; `float`
and `double` metadata payloads, which the codec never inspects or converts,
are modelled as opaque `Int` bit patterns.

Platform model: LP64, little endian (the platform the code is written for).
Consequences, visible in the source itself:
  * `long` and `long long` are 64-bit; `int` is 32-bit.
  * HDF5's `H5Tequal` (the `==` used on `H5::DataType`) compares datatype
    content, so `NATIVE_LONG`, `NATIVE_LLONG` and `STD_I64LE` are one and
    the same storage type (the code's own comments rely on this: the
    `NATIVE_LONG` read branch checks the `isLLong` tag), and likewise
    `NATIVE_ULONG`/`NATIVE_ULLONG`/`STD_U64LE`, and
    `NATIVE_HBOOL`/`NATIVE_UCHAR`.
Storage types are therefore modelled by their content: `U8, I8, U16, I16,
U32, I32, U64, I64, F32, F64` plus the variable-length string type `Str`.
-/

namespace HDF5Container

/-- Content-distinct HDF5 storage (file) datatypes reachable by this codec. -/
inductive StorageT where
  | U8 | I8 | U16 | I16 | U32 | I32 | U64 | I64 | F32 | F64 | Str
deriving DecidableEq, Repr

/-- The abstract component-type enumeration (`itk::IOComponentEnum`),
restricted to the members named by the source. -/
inductive IOComponentEnum where
  | UCHAR | CHAR | USHORT | SHORT | UINT | INT
  | ULONG | LONG | ULONGLONG | LONGLONG | FLOAT | DOUBLE
  | LDOUBLE | UNKNOWNCOMPONENTTYPE
deriving DecidableEq, Repr

/-- `PredTypeToComponentType` (itkHDF5ContainerImageIO.cxx:145-196): the
if-cascade comparing the file type against `NATIVE_UCHAR, NATIVE_CHAR,
NATIVE_USHORT, NATIVE_SHORT, NATIVE_UINT, NATIVE_INT, NATIVE_ULONG,
NATIVE_LONG, NATIVE_LLONG, NATIVE_ULLONG, NATIVE_FLOAT, NATIVE_DOUBLE`
in that order.  On LP64 the `NATIVE_LLONG`/`NATIVE_ULLONG` arms are dead:
their content equals `NATIVE_LONG`/`NATIVE_ULONG`, which are compared
first.  The final `itkGenericExceptionMacro` is `none`. -/
def PredTypeToComponentType : StorageT → Option IOComponentEnum
  | .U8 => some .UCHAR
  | .I8 => some .CHAR
  | .U16 => some .USHORT
  | .I16 => some .SHORT
  | .U32 => some .UINT
  | .I32 => some .INT
  | .U64 => some .ULONG
  | .I64 => some .LONG
  | .F32 => some .FLOAT
  | .F64 => some .DOUBLE
  | .Str => none

/-- `ComponentToPredType` (itkHDF5ContainerImageIO.cxx:198-233): the switch
mapping each component kind to its native storage type; `LDOUBLE` and
`UNKNOWNCOMPONENTTYPE` throw (`none`).  On LP64: `NATIVE_LONG` =
`NATIVE_LLONG` = `I64` and `NATIVE_ULONG` = `NATIVE_ULLONG` = `U64`. -/
def ComponentToPredType : IOComponentEnum → Option StorageT
  | .UCHAR => some .U8
  | .CHAR => some .I8
  | .USHORT => some .U16
  | .SHORT => some .I16
  | .UINT => some .U32
  | .INT => some .I32
  | .ULONG => some .U64
  | .LONG => some .I64
  | .ULONGLONG => some .U64
  | .LONGLONG => some .I64
  | .FLOAT => some .F32
  | .DOUBLE => some .F64
  | .LDOUBLE => none
  | .UNKNOWNCOMPONENTTYPE => none

/-! ### Scalar / vector / metadata codec -/

/-- Wrap an integer into the range of a 32-bit signed int
(the effect of `static_cast<int>` on gcc/clang, two's complement). -/
def wrapI32 (v : Int) : Int := (v + 2 ^ 31) % 2 ^ 32 - 2 ^ 31

/-- The dynamically-typed values a `MetaDataDictionary` entry can hold, as
far as this codec's writers and readers distinguish them.  Integer payloads
carry the mathematical value held by the C++ object (range invariants are
tracked as hypotheses); `mFloat`/`mDouble`/`aFloat`/`aDouble` payloads are
opaque IEEE bit patterns the codec never converts; `mCString` is the
`char*`/`const char*` form; `mUnsupported` stands for any held type that
matches none of the writers tried by `WriteImageMetaData`. -/
inductive MetaValue where
  | mBool (b : Bool)
  | mChar (v : Int)
  | mUChar (v : Int)
  | mShort (v : Int)
  | mUShort (v : Int)
  | mInt (v : Int)
  | mUInt (v : Int)
  | mLong (v : Int)
  | mULong (v : Int)
  | mLLong (v : Int)
  | mULLong (v : Int)
  | mFloat (bits : Int)
  | mDouble (bits : Int)
  | mString (s : String)
  | mCString (s : String)
  | aChar (l : List Int)
  | aUChar (l : List Int)
  | aShort (l : List Int)
  | aUShort (l : List Int)
  | aInt (l : List Int)
  | aUInt (l : List Int)
  | aLong (l : List Int)
  | aULong (l : List Int)
  | aFloat (l : List Int)
  | aDouble (l : List Int)
  | mUnsupported
deriving DecidableEq, Repr

/-- One addressable stored object (an HDF5 dataset holding a scalar, a
1-D vector, or a variable-length string) together with its side-tag
attributes.  All objects written by this codec have a 1-D dataspace;
`vals` is the numeric payload as stored on disk (already narrowed by the
write path), `strVal` the payload when `typ = Str`, and `tags` the names
of the boolean side-tag attributes attached at creation time. -/
structure H5Obj where
  typ : StorageT
  vals : List Int
  strVal : String
  tags : List String
deriving DecidableEq, Repr

/-- `WriteScalar(path, const bool&)` (cxx:297-317): creates a one-element
`NATIVE_HBOOL` (content: U8) dataset, attaches the `isBool` tag, and writes
`static_cast<int>(value)` through memory type `NATIVE_HBOOL` — on little
endian the low byte, i.e. 0 or 1. -/
def writeScalarBool (value : Bool) : H5Obj :=
  { typ := .U8, vals := [if value then 1 else 0], strVal := "", tags := ["isBool"] }

/-- `WriteScalar(path, const long&)` (cxx:336-357): creates a one-element
`NATIVE_INT` (I32) dataset, attaches the `isLong` tag, and writes
`static_cast<int>(value)` — the long truncated to 32 bits. -/
def writeScalarLong (value : Int) : H5Obj :=
  { typ := .I32, vals := [wrapI32 value], strVal := "", tags := ["isLong"] }

/-- `WriteScalar(path, const unsigned long&)` (cxx:359-380): creates a
one-element `NATIVE_UINT` (U32) dataset, attaches `isUnsignedLong`, and
writes `static_cast<int>(value)` through memory type `NATIVE_UINT`: the
stored unsigned 32-bit value is `value mod 2^32`. -/
def writeScalarULong (value : Int) : H5Obj :=
  { typ := .U32, vals := [value % 2 ^ 32], strVal := "", tags := ["isUnsignedLong"] }

/-- `WriteScalar(path, const long long&)` (cxx:382-402): a one-element
`STD_I64LE` (content: I64, equal to `NATIVE_LONG` on LP64) dataset with the
`isLLong` tag; the full 64-bit value is written. -/
def writeScalarLLong (value : Int) : H5Obj :=
  { typ := .I64, vals := [value], strVal := "", tags := ["isLLong"] }

/-- `WriteScalar(path, const unsigned long long&)` (cxx:404-424): a
one-element `STD_U64LE` (content: U64) dataset with the `isULLong` tag;
the full 64-bit value is written. -/
def writeScalarULLong (value : Int) : H5Obj :=
  { typ := .U64, vals := [value], strVal := "", tags := ["isULLong"] }

/-- `ReadScalar<T>` (cxx:438-462): fails unless the dataspace is 1-D with
exactly one element, then yields the stored value (the HDF5 conversions
met on this codec's own outputs — widening or same-width — preserve the
value; the one narrowing case, I32 read as unsigned, is modelled where it
occurs). -/
def scalar1 (o : H5Obj) : Except String Int :=
  match o.vals with
  | [v] => .ok v
  | _ => .error "Elements > 1 for scalar type in HDF5 File"

/-- The per-child dispatch of `ReadImageMetaData` (cxx:877-1024) for one
stored object: the storage type is compared (content equality) against
`NATIVE_INT, NATIVE_CHAR, NATIVE_UCHAR, NATIVE_SHORT, NATIVE_USHORT,
NATIVE_UINT, NATIVE_LONG, NATIVE_ULONG, NATIVE_LLONG, NATIVE_ULLONG,
NATIVE_FLOAT, NATIVE_DOUBLE`, then the variable-length string type; on
LP64 the `NATIVE_LLONG`/`NATIVE_ULLONG` arms are unreachable (equal to
`NATIVE_LONG`/`NATIVE_ULONG`, compared first).  Within a branch the
disambiguation tags are checked in the source's order.  `StoreMetaData<T>`
(cxx:734-759) produces a scalar entry when the element count is 1 and an
`itk::Array<T>` entry otherwise.  A `.ok none` models a silently skipped
child; reading a tagged child through `ReadScalar` with element count ≠ 1
is an error.  `isUnsignedLong` on a `NATIVE_INT` child reads the I32 value
as `unsigned long`; HDF5's default conversion clamps negatives to 0. -/
def restoreEntry (o : H5Obj) : Except String (Option MetaValue) :=
  if o.typ = .I32 then
    if o.tags.contains "isBool" then do
      let v ← scalar1 o
      pure (some (.mBool (v != 0)))
    else if o.tags.contains "isLong" then do
      let v ← scalar1 o
      pure (some (.mLong v))
    else if o.tags.contains "isUnsignedLong" then do
      let v ← scalar1 o
      pure (some (.mULong (max 0 v)))
    else
      match o.vals with
      | [v] => .ok (some (.mInt v))
      | l => .ok (some (.aInt l))
  else if o.typ = .I8 then
    match o.vals with
    | [v] => .ok (some (.mChar v))
    | l => .ok (some (.aChar l))
  else if o.typ = .U8 then
    if o.tags.contains "isBool" then do
      let v ← scalar1 o
      pure (some (.mBool (v != 0)))
    else
      match o.vals with
      | [v] => .ok (some (.mUChar v))
      | l => .ok (some (.aUChar l))
  else if o.typ = .I16 then
    match o.vals with
    | [v] => .ok (some (.mShort v))
    | l => .ok (some (.aShort l))
  else if o.typ = .U16 then
    match o.vals with
    | [v] => .ok (some (.mUShort v))
    | l => .ok (some (.aUShort l))
  else if o.typ = .U32 then
    if o.tags.contains "isUnsignedLong" then do
      let v ← scalar1 o
      pure (some (.mULong v))
    else
      match o.vals with
      | [v] => .ok (some (.mUInt v))
      | l => .ok (some (.aUInt l))
  else if o.typ = .I64 then
    if o.tags.contains "isLLong" then do
      let v ← scalar1 o
      pure (some (.mLLong v))
    else
      match o.vals with
      | [v] => .ok (some (.mLong v))
      | l => .ok (some (.aLong l))
  else if o.typ = .U64 then
    if o.tags.contains "isULLong" then do
      let v ← scalar1 o
      pure (some (.mULLong v))
    else
      match o.vals with
      | [v] => .ok (some (.mULong v))
      | l => .ok (some (.aULong l))
  else if o.typ = .F32 then
    match o.vals with
    | [v] => .ok (some (.mFloat v))
    | l => .ok (some (.aFloat l))
  else if o.typ = .F64 then
    match o.vals with
    | [v] => .ok (some (.mDouble v))
    | l => .ok (some (.aDouble l))
  else if o.typ = .Str then
    .ok (some (.mString o.strVal))
  else
    .ok none

/-- The per-entry writer cascade of `WriteImageMetaData` (cxx:1429-1551):
`WriteMeta<bool..double>` (exact dynamic type match, then `WriteScalar`),
`WriteMetaArray<char..double>` (then `WriteVector`, full width, no tag),
then the `char*`/`const char*` and `std::string` writers (`WriteString`).
An entry matching no writer is skipped (`none`). -/
def persistEntry : MetaValue → Option H5Obj
  | .mBool b => some (writeScalarBool b)
  | .mChar v => some { typ := .I8, vals := [v], strVal := "", tags := [] }
  | .mUChar v => some { typ := .U8, vals := [v], strVal := "", tags := [] }
  | .mShort v => some { typ := .I16, vals := [v], strVal := "", tags := [] }
  | .mUShort v => some { typ := .U16, vals := [v], strVal := "", tags := [] }
  | .mInt v => some { typ := .I32, vals := [v], strVal := "", tags := [] }
  | .mUInt v => some { typ := .U32, vals := [v], strVal := "", tags := [] }
  | .mLong v => some (writeScalarLong v)
  | .mULong v => some (writeScalarULong v)
  | .mLLong v => some (writeScalarLLong v)
  | .mULLong v => some (writeScalarULLong v)
  | .mFloat b => some { typ := .F32, vals := [b], strVal := "", tags := [] }
  | .mDouble b => some { typ := .F64, vals := [b], strVal := "", tags := [] }
  | .mString s => some { typ := .Str, vals := [], strVal := s, tags := [] }
  | .mCString s => some { typ := .Str, vals := [], strVal := s, tags := [] }
  | .aChar l => some { typ := .I8, vals := l, strVal := "", tags := [] }
  | .aUChar l => some { typ := .U8, vals := l, strVal := "", tags := [] }
  | .aShort l => some { typ := .I16, vals := l, strVal := "", tags := [] }
  | .aUShort l => some { typ := .U16, vals := l, strVal := "", tags := [] }
  | .aInt l => some { typ := .I32, vals := l, strVal := "", tags := [] }
  | .aUInt l => some { typ := .U32, vals := l, strVal := "", tags := [] }
  | .aLong l => some { typ := .I64, vals := l, strVal := "", tags := [] }
  | .aULong l => some { typ := .U64, vals := l, strVal := "", tags := [] }
  | .aFloat l => some { typ := .F32, vals := l, strVal := "", tags := [] }
  | .aDouble l => some { typ := .F64, vals := l, strVal := "", tags := [] }
  | .mUnsupported => none

/-- `WriteImageMetaData` over a whole dictionary (modelled as its key-sorted
association list, matching both `std::map` iteration and HDF5's name-ordered
group listing): each entry is handed to the writer cascade; entries matching
no writer are skipped. -/
def persistMeta (dict : List (String × MetaValue)) : List (String × H5Obj) :=
  dict.filterMap fun kv => (persistEntry kv.2).map fun o => (kv.1, o)

/-- `ReadImageMetaData` over the children of the `ITKMetaData` group:
each child is dispatched through `restoreEntry`; skipped children are
absent, the first error aborts (the exception propagates out of
`ReadImageMetaData`). -/
def restoreMeta : List (String × H5Obj) → Except String (List (String × MetaValue))
  | [] => .ok []
  | (k, o) :: rest => do
    let r ← restoreEntry o
    let tail ← restoreMeta rest
    match r with
    | none => pure tail
    | some v => pure ((k, v) :: tail)

/-- The metadata entries that survive the persist/restore round trip
unchanged: every held value within its C++ type's range, `long` and
`unsigned long` values additionally within 32 bits (the scalar writers
truncate them to 32 bits), arrays of any length other than one (a
one-element stored vector is reconstructed as a scalar), and strings held
as `std::string` (a `char*` entry is reconstructed as `std::string`).
Unsupported-type entries are excluded here and handled separately. -/
def roundtrippable : MetaValue → Prop
  | .mBool _ => True
  | .mChar v => -(2 ^ 7) ≤ v ∧ v < 2 ^ 7
  | .mUChar v => 0 ≤ v ∧ v < 2 ^ 8
  | .mShort v => -(2 ^ 15) ≤ v ∧ v < 2 ^ 15
  | .mUShort v => 0 ≤ v ∧ v < 2 ^ 16
  | .mInt v => -(2 ^ 31) ≤ v ∧ v < 2 ^ 31
  | .mUInt v => 0 ≤ v ∧ v < 2 ^ 32
  | .mLong v => -(2 ^ 31) ≤ v ∧ v < 2 ^ 31
  | .mULong v => 0 ≤ v ∧ v < 2 ^ 32
  | .mLLong v => -(2 ^ 63) ≤ v ∧ v < 2 ^ 63
  | .mULLong v => 0 ≤ v ∧ v < 2 ^ 64
  | .mFloat _ => True
  | .mDouble _ => True
  | .mString _ => True
  | .mCString _ => False
  | .aChar l => l.length ≠ 1
  | .aUChar l => l.length ≠ 1
  | .aShort l => l.length ≠ 1
  | .aUShort l => l.length ≠ 1
  | .aInt l => l.length ≠ 1
  | .aUInt l => l.length ≠ 1
  | .aLong l => l.length ≠ 1
  | .aULong l => l.length ≠ 1
  | .aFloat l => l.length ≠ 1
  | .aDouble l => l.length ≠ 1
  | .mUnsupported => False

theorem wrapI32_eq_self (v : Int) (h1 : -(2 ^ 31) ≤ v) (h2 : v < 2 ^ 31) :
    wrapI32 v = v := by
  unfold wrapI32
  omega

theorem roundtrippable_ne_unsupported {v : MetaValue} (h : roundtrippable v) :
    v ≠ .mUnsupported := by
  cases v <;> simp_all [roundtrippable]

/-- A round-trippable entry is written by exactly one writer and
reconstructed identically by the metadata read dispatch. -/
theorem restore_persist_entry (v : MetaValue) (h : roundtrippable v) :
    ∃ o, persistEntry v = some o ∧ restoreEntry o = .ok (some v) := by
  cases v with
  | mBool b => exact ⟨_, rfl, by cases b <;> rfl⟩
  | mChar v => exact ⟨_, rfl, rfl⟩
  | mUChar v => exact ⟨_, rfl, rfl⟩
  | mShort v => exact ⟨_, rfl, rfl⟩
  | mUShort v => exact ⟨_, rfl, rfl⟩
  | mInt v => exact ⟨_, rfl, rfl⟩
  | mUInt v => exact ⟨_, rfl, rfl⟩
  | mLong v =>
    refine ⟨_, rfl, ?_⟩
    have e : restoreEntry (writeScalarLong v) = .ok (some (.mLong (wrapI32 v))) := rfl
    rw [e, wrapI32_eq_self v h.1 h.2]
  | mULong v =>
    refine ⟨_, rfl, ?_⟩
    have e : restoreEntry (writeScalarULong v) = .ok (some (.mULong (v % 2 ^ 32))) := rfl
    rw [e, Int.emod_eq_of_lt h.1 h.2]
  | mLLong v => exact ⟨_, rfl, rfl⟩
  | mULLong v => exact ⟨_, rfl, rfl⟩
  | mFloat b => exact ⟨_, rfl, rfl⟩
  | mDouble b => exact ⟨_, rfl, rfl⟩
  | mString s => exact ⟨_, rfl, rfl⟩
  | mCString s => exact absurd h id
  | aChar l => rcases l with _ | ⟨a, _ | ⟨b, t⟩⟩ <;> first | exact ⟨_, rfl, rfl⟩ | exact absurd rfl h
  | aUChar l => rcases l with _ | ⟨a, _ | ⟨b, t⟩⟩ <;> first | exact ⟨_, rfl, rfl⟩ | exact absurd rfl h
  | aShort l => rcases l with _ | ⟨a, _ | ⟨b, t⟩⟩ <;> first | exact ⟨_, rfl, rfl⟩ | exact absurd rfl h
  | aUShort l => rcases l with _ | ⟨a, _ | ⟨b, t⟩⟩ <;> first | exact ⟨_, rfl, rfl⟩ | exact absurd rfl h
  | aInt l => rcases l with _ | ⟨a, _ | ⟨b, t⟩⟩ <;> first | exact ⟨_, rfl, rfl⟩ | exact absurd rfl h
  | aUInt l => rcases l with _ | ⟨a, _ | ⟨b, t⟩⟩ <;> first | exact ⟨_, rfl, rfl⟩ | exact absurd rfl h
  | aLong l => rcases l with _ | ⟨a, _ | ⟨b, t⟩⟩ <;> first | exact ⟨_, rfl, rfl⟩ | exact absurd rfl h
  | aULong l => rcases l with _ | ⟨a, _ | ⟨b, t⟩⟩ <;> first | exact ⟨_, rfl, rfl⟩ | exact absurd rfl h
  | aFloat l => rcases l with _ | ⟨a, _ | ⟨b, t⟩⟩ <;> first | exact ⟨_, rfl, rfl⟩ | exact absurd rfl h
  | aDouble l => rcases l with _ | ⟨a, _ | ⟨b, t⟩⟩ <;> first | exact ⟨_, rfl, rfl⟩ | exact absurd rfl h
  | mUnsupported => exact absurd h id

/-- C1 (counterexample): the claim fails as stated.  Writing the `long`
value `2^31` through the scalar codec stores `static_cast<int>(2^31)` =
`-2^31`; the metadata read path reconstructs abstract type `long` but
value `-2^31`, not the original value. -/
theorem c1_counterexample :
    restoreEntry (writeScalarLong (2 ^ 31)) =
      .ok (some (.mLong (-(2 ^ 31)))) ∧ (2 : Int) ^ 31 ≠ -(2 ^ 31) :=
  ⟨rfl, by decide⟩

/-- C1 (amended): writing a scalar of a disambiguation-tagged type through
the scalar codec and reading it back through the metadata read path always
reconstructs the exact original abstract type; the value is reconstructed
exactly for `bool`, `long long` and `unsigned long long`, and for `long` /
`unsigned long` exactly when the value fits in 32 bits (signed resp.
unsigned) — those two writers truncate the value to 32 bits.  The final
conjunct records type preservation for an arbitrary (possibly
out-of-range) `long`. -/
theorem c1_tagged_scalar_roundtrip (b : Bool) (vl vul vll vull anyl : Int)
    (hl : -(2 ^ 31) ≤ vl ∧ vl < 2 ^ 31) (hul : 0 ≤ vul ∧ vul < 2 ^ 32) :
    restoreEntry (writeScalarBool b) = .ok (some (.mBool b)) ∧
    restoreEntry (writeScalarLong vl) = .ok (some (.mLong vl)) ∧
    restoreEntry (writeScalarULong vul) = .ok (some (.mULong vul)) ∧
    restoreEntry (writeScalarLLong vll) = .ok (some (.mLLong vll)) ∧
    restoreEntry (writeScalarULLong vull) = .ok (some (.mULLong vull)) ∧
    restoreEntry (writeScalarLong anyl) = .ok (some (.mLong (wrapI32 anyl))) := by
  refine ⟨by cases b <;> rfl, ?_, ?_, rfl, rfl, rfl⟩
  · have e : restoreEntry (writeScalarLong vl) = .ok (some (.mLong (wrapI32 vl))) := rfl
    rw [e, wrapI32_eq_self vl hl.1 hl.2]
  · have e : restoreEntry (writeScalarULong vul) = .ok (some (.mULong (vul % 2 ^ 32))) := rfl
    rw [e, Int.emod_eq_of_lt hul.1 hul.2]

/-- C1 (witness): the amended round trip at concrete inputs. -/
theorem c1_tagged_scalar_roundtrip_witness :
    restoreEntry (writeScalarBool true) = .ok (some (.mBool true)) ∧
    restoreEntry (writeScalarLong 7) = .ok (some (.mLong 7)) ∧
    restoreEntry (writeScalarULong 9) = .ok (some (.mULong 9)) ∧
    restoreEntry (writeScalarLLong (2 ^ 40)) = .ok (some (.mLLong (2 ^ 40))) ∧
    restoreEntry (writeScalarULLong (2 ^ 63)) = .ok (some (.mULLong (2 ^ 63))) ∧
    restoreEntry (writeScalarLong (2 ^ 31)) = .ok (some (.mLong (wrapI32 (2 ^ 31)))) :=
  c1_tagged_scalar_roundtrip true 7 9 (2 ^ 40) (2 ^ 63) (2 ^ 31)
    (by decide) (by decide)

/-- C3 (counterexample): the claim fails as stated.  The one-entry
dictionary holding the supported-type value `long 2^31` persists and
restores to a dictionary with the same key but value `long (-2^31)`:
the round trip is not the identity on all supported-type dictionaries. -/
theorem c3_counterexample :
    restoreMeta (persistMeta [("k", .mLong (2 ^ 31))]) =
      .ok [("k", .mLong (-(2 ^ 31)))] ∧
    ([("k", MetaValue.mLong (2 ^ 31))] : List (String × MetaValue)) ≠
      [("k", .mLong (-(2 ^ 31)))] := by
  exact ⟨rfl, by decide⟩

/-- C3 (amended): for every metadata dictionary whose entries are each
either round-trippable (supported type, values within the stored width:
`long`/`unsigned long` within 32 bits, arrays of length ≠ 1, strings held
as `std::string`) or of a type matching no writer, persisting then
restoring yields exactly the dictionary with the unmatched entries
silently removed — same keys in order, equal values, and no error. -/
theorem c3_metadata_roundtrip (d : List (String × MetaValue))
    (h : ∀ kv ∈ d, roundtrippable kv.2 ∨ kv.2 = .mUnsupported) :
    restoreMeta (persistMeta d) =
      .ok (d.filter fun kv => decide (kv.2 ≠ .mUnsupported)) := by
  induction d with
  | nil => rfl
  | cons kv rest ih =>
    obtain ⟨k, v⟩ := kv
    have hd := h ⟨k, v⟩ (List.mem_cons_self _ _)
    have hrest := ih fun x hx => h x (List.mem_cons_of_mem _ hx)
    rcases hd with hrt | hun
    · obtain ⟨o, ho, hr⟩ := restore_persist_entry v hrt
      have hne := roundtrippable_ne_unsupported hrt
      simp only [persistMeta, List.filterMap_cons, ho, Option.map_some']
      simp only [persistMeta] at hrest
      simp only [restoreMeta, hr, hrest, List.filter_cons]
      simp only [hne, decide_not, ne_eq, decide_eq_true_eq]
      rfl
    · subst hun
      have hn : persistEntry MetaValue.mUnsupported = none := rfl
      simp only [persistMeta, List.filterMap_cons, hn, Option.map_none']
      simp only [persistMeta] at hrest
      rw [hrest]
      simp [List.filter_cons]

/-- C3 (witness): the amended round trip on a concrete dictionary holding
one entry of every round-trippable scalar kind, an array, a string, and an
unsupported entry (which is silently dropped, without error). -/
theorem c3_metadata_roundtrip_witness :
    restoreMeta (persistMeta
      [("a", .mBool true), ("b", .mInt 5), ("c", .mLong 12),
       ("d", .aDouble [10, 20, 30]), ("e", .mString "hello"),
       ("f", .mUnsupported)]) =
      .ok [("a", .mBool true), ("b", .mInt 5), ("c", .mLong 12),
           ("d", .aDouble [10, 20, 30]), ("e", .mString "hello")] := by
  have h := c3_metadata_roundtrip
    [("a", .mBool true), ("b", .mInt 5), ("c", .mLong 12),
     ("d", .aDouble [10, 20, 30]), ("e", .mString "hello"),
     ("f", .mUnsupported)]
    (by
      intro kv hkv
      simp only [List.mem_cons, List.not_mem_nil, or_false] at hkv
      rcases hkv with h | h | h | h | h | h <;> subst h <;>
        simp [roundtrippable])
  simpa using h

/-! ### Streaming region selector (`SetupStreaming`, cxx:1026-1067) -/

/-- The inputs `SetupStreaming` consumes: the requested logical region
(fastest-moving axis first), its image dimensionality (`limit`), the
component count, `GetNumberOfDimensions()`, and the explicit per-axis
override vectors with their enable flags. -/
structure StreamEnv where
  regionSize : List Nat
  regionIndex : List Nat
  imageDimension : Nat
  numComponents : Nat
  numDims : Nat
  useOffset : Bool
  dsOffset : List Nat
  useSize : Bool
  dsSize : List Nat
  useStride : Bool
  dsStride : List Nat

/-- The storage-order hyperslab descriptor built by `SetupStreaming`:
the three `new hsize_t[HDFDim]` arrays, index 0 = slowest-moving storage
axis.  A `none` entry is a slot the routine never assigned (the C++ array
element stays uninitialized). -/
structure Hyperslab where
  offset : List (Option Nat)
  size : List (Option Nat)
  stride : List (Option Nat)
deriving DecidableEq, Repr

/-- `SetupStreaming` (cxx:1026-1067).  `HDFDim = numDims + (numComponents
> 1 ? 1 : 0)`; if multi-component, slot `HDFDim-1` of offset/size is fixed
to `0`/`numComponents` (stride untouched) and `i` starts at 1; the main
loop walks logical axes `j` while `j < limit && i < HDFDim`, filling slot
`HDFDim-i-1` from the override vectors or the region; the final loop pads
the remaining slots' offset/size with `0`/`1` (stride again untouched). -/
def setupStreaming (e : StreamEnv) : Hyperslab :=
  let HDFDim := e.numDims + (if e.numComponents > 1 then 1 else 0)
  let init : Hyperslab :=
    { offset := List.replicate HDFDim none
      size := List.replicate HDFDim none
      stride := List.replicate HDFDim none }
  let (h0, i0) :=
    if e.numComponents > 1 then
      ({ init with
          offset := init.offset.set (HDFDim - 1) (some 0)
          size := init.size.set (HDFDim - 1) (some e.numComponents) }, 1)
    else (init, 0)
  let axisCount := min e.imageDimension (HDFDim - i0)
  let h1 := (List.range axisCount).foldl
    (fun h j =>
      let idx := HDFDim - (i0 + j) - 1
      { offset := h.offset.set idx
          (some (if e.useOffset then e.dsOffset.getD j 0 else e.regionIndex.getD j 0))
        size := h.size.set idx
          (some (if e.useSize then e.dsSize.getD j 0 else e.regionSize.getD j 0))
        stride := h.stride.set idx
          (some (if e.useStride then e.dsStride.getD j 0 else 1)) })
    h0
  (List.range (HDFDim - (i0 + axisCount))).foldl
    (fun h p =>
      let idx := HDFDim - (i0 + axisCount + p) - 1
      { h with
          offset := h.offset.set idx (some 0)
          size := h.size.set idx (some 1) })
    h1

/-- C2: for the 3D logical region size `[10,20,30]`, offset `[0,0,0]`,
single component and no overrides, the selector produces storage rank 3
with hyperslab size `[30,20,10]` (storage order, slowest first) and offset
`[0,0,0]`; with component count 3 it produces storage rank 4 with offset
`[0,0,0,0]` and size `[30,20,10,3]`. -/
theorem c2_region_selection :
    (setupStreaming
        { regionSize := [10, 20, 30], regionIndex := [0, 0, 0],
          imageDimension := 3, numComponents := 1, numDims := 3,
          useOffset := false, dsOffset := [], useSize := false, dsSize := [],
          useStride := false, dsStride := [] }).size =
        [some 30, some 20, some 10] ∧
    (setupStreaming
        { regionSize := [10, 20, 30], regionIndex := [0, 0, 0],
          imageDimension := 3, numComponents := 1, numDims := 3,
          useOffset := false, dsOffset := [], useSize := false, dsSize := [],
          useStride := false, dsStride := [] }).offset =
        [some 0, some 0, some 0] ∧
    (setupStreaming
        { regionSize := [10, 20, 30], regionIndex := [0, 0, 0],
          imageDimension := 3, numComponents := 3, numDims := 3,
          useOffset := false, dsOffset := [], useSize := false, dsSize := [],
          useStride := false, dsStride := [] }).size =
        [some 30, some 20, some 10, some 3] ∧
    (setupStreaming
        { regionSize := [10, 20, 30], regionIndex := [0, 0, 0],
          imageDimension := 3, numComponents := 3, numDims := 3,
          useOffset := false, dsOffset := [], useSize := false, dsSize := [],
          useStride := false, dsStride := [] }).offset =
        [some 0, some 0, some 0, some 0] := by
  refine ⟨rfl, rfl, rfl, rfl⟩

/-- C10: the claimed initialization is violated.  For the 3D region
`size=[10,20,30]` with component count 3, the stride entry of the
component storage axis (slot `HDFDim-1 = 3`) is never assigned before the
descriptor is passed to `selectHyperslab`; likewise, for a 3-dimensional
object streamed over a 2-dimensional region the padding axis's stride slot
stays unassigned.  The spatial slots do get stride 1. -/
theorem c10_uninitialized_stride :
    (setupStreaming
        { regionSize := [10, 20, 30], regionIndex := [0, 0, 0],
          imageDimension := 3, numComponents := 3, numDims := 3,
          useOffset := false, dsOffset := [], useSize := false, dsSize := [],
          useStride := false, dsStride := [] }).stride =
        [some 1, some 1, some 1, none] ∧
    (setupStreaming
        { regionSize := [10, 20], regionIndex := [0, 0],
          imageDimension := 2, numComponents := 1, numDims := 3,
          useOffset := false, dsOffset := [], useSize := false, dsSize := [],
          useStride := false, dsStride := [] }).stride =
        [none, some 1, some 1] := by
  refine ⟨rfl, rfl⟩

/-! ### Attribute schema codec (`WriteDataSetAttributes` /
`ReadDataSetAttributes`, cxx:1313-1427) -/

/-- The geometry tuple attached to a dataset: logical sizes
(fastest-moving axis first), origin, spacing, direction cosine matrix. -/
structure Geometry where
  dims : List Nat
  origin : List Rat
  spacing : List Rat
  direction : List (List Rat)
deriving DecidableEq, Repr

/-- The flattening loop of `WriteDirectionsDataSetAttributes`
(cxx:607-630): `dim[1] = dir.size()` rows, `dim[0] = dir[0].size()`
columns; `buf[k++] = dir[i][j]` walks rows outer, columns inner.  The
attribute's 2-D dataspace is created with extents `(dim[0], dim[1])`.
Result: `(columns, rows, row-major buffer)`. -/
def dirFlatten (dir : List (List Rat)) : Nat × Nat × List Rat :=
  let c := (dir.headD []).length
  (c, dir.length, (dir.map fun row => row.take c).flatten)

/-- The reconstruction loop of `ReadDirectionsDataSetAttributes`
(cxx:683-732): `rval` has `dim[1]` rows of `dim[0]` entries each, filled
from the buffer through the sequential counter `k` — i.e. successive
chunks of `dim[0]` elements. -/
def dirUnflatten (c : Nat) : Nat → List Rat → List (List Rat)
  | 0, _ => []
  | r + 1, buf => buf.take c :: dirUnflatten c r (buf.drop c)

theorem dirUnflatten_flatten (c : Nat) (dir : List (List Rat))
    (h : ∀ row ∈ dir, row.length = c) :
    dirUnflatten c dir.length (dir.map fun row => row.take c).flatten = dir := by
  induction dir with
  | nil => rfl
  | cons row rest ih =>
    have hrow : row.length = c := h row (List.mem_cons_self _ _)
    have hrest := ih fun r hr => h r (List.mem_cons_of_mem _ hr)
    have htake : row.take c = row := by rw [← hrow, List.take_length]
    simp only [List.map_cons, List.flatten_cons, htake, List.length_cons, dirUnflatten]
    have hdrop : row.drop c = [] := by rw [← hrow, List.drop_length]
    rw [List.take_append_of_le_length (le_of_eq hrow.symm),
      List.drop_append_of_le_length (le_of_eq hrow.symm)]
    simp [htake, hdrop, hrest]

/-- The four dataset attributes as an (optional) store: the `Origin`,
`Spacing`, `Dimension` and `Directions` attribute payloads. -/
structure AttrStore where
  dimsA : Option (List Nat)
  originA : Option (List Rat)
  spacingA : Option (List Rat)
  directionsA : Option (Nat × Nat × List Rat)

/-- `WriteDataSetAttributes` (cxx:1313-1321): writes the `Origin`,
`Spacing`, `Dimension` vectors and the `Directions` matrix of the current
geometry to the dataset. -/
def writeDataSetAttributes (g : Geometry) : AttrStore :=
  { dimsA := some g.dims, originA := some g.origin, spacingA := some g.spacing,
    directionsA := some (dirFlatten g.direction) }

/-- The explicit per-axis override configuration
(`m_UseDataSetOffset/Size/Stride` and the three vectors). -/
structure OverrideCfg where
  useOffset : Bool
  useSize : Bool
  useStride : Bool
  dsOffset : List Nat
  dsSize : List Nat
  dsStride : List Nat

/-- The image-describing state the reader mutates (the relevant members of
the `ImageIOBase`-derived object). -/
structure ImageState where
  nDims : Nat
  dimensions : List Nat
  origin : List Rat
  spacing : List Rat
  direction : List (List Rat)
  numComponents : Nat
  componentType : IOComponentEnum
  useInferredDimensions : Bool
deriving Repr

/-- Resize a list to length `n`, keeping the prefix and defaulting new
entries. -/
def resizeTo {α : Type} (d : α) (n : Nat) (l : List α) : List α :=
  l.take n ++ List.replicate (n - l.length) d

/-- `SetNumberOfDimensions` of the host base class (an external
collaborator, consumed as a narrow interface).  Modelled from the spec:
origin/spacing lengths and the direction rank track the dimensionality
(§3); resizing keeps existing per-axis values and defaults new axes
(origin 0, spacing 1). -/
def setNumberOfDimensions (n : Nat) (s : ImageState) : ImageState :=
  { s with
    nDims := n
    dimensions := resizeTo 0 n s.dimensions
    origin := resizeTo 0 n s.origin
    spacing := resizeTo 1 n s.spacing
    direction := resizeTo [] n s.direction }

/-- 64-bit unsigned subtraction (`size_t` arithmetic of
`GetDimensions(i) / stride - offset`): wraps modulo `2^64`. -/
def sub64 (a b : Nat) : Nat := (((a : Int) - b) % 2 ^ 64).toNat

/-- One axis of the stride-without-explicit-size size recomputation
(cxx:1415-1420): only axes with stride > 1 are touched; the new size is
`GetDimensions(i) / stride[i] - offset` in unsigned arithmetic, with
`offset = m_DataSetOffset[i]` if the offset override is enabled, else 0. -/
def strideDim (d st off : Nat) : Nat := if 1 < st then sub64 (d / st) off else d

/-- `ReadDataSetAttributes` (cxx:1323-1427), in source order: component
type from the dataset's storage type; dimensions from the `Dimension`
attribute if present (with the trailing storage axis read as component
count), else inferred from the reversed storage shape with component count
1; the explicit size override (length-checked) replacing the sizes;
`Directions`, `Origin`, `Spacing` each read only if present; the offset
and stride override length checks; and, when a stride override is set,
spacing scaled by the stride on every axis and — only without a size
override — the per-axis size recomputation for axes with stride > 1. -/
def readDataSetAttributes (cfg : OverrideCfg) (storageDims : List Nat)
    (dsType : StorageT) (a : AttrStore) (s : ImageState) :
    Except String ImageState :=
  match PredTypeToComponentType dsType with
  | none => .error "unsupported HDF5 data type"
  | some ct =>
    let s := { s with componentType := ct }
    let nInferred := storageDims.length
    let step :=
      match a.dimsA with
      | some dimsVec =>
        let s := { s with useInferredDimensions := false, dimensions := dimsVec }
        let n := dimsVec.length
        let s := setNumberOfDimensions n s
        let s := if nInferred > n
          then { s with numComponents := storageDims.getD (n - 1) 0 }
          else s
        (s, n)
      | none =>
        let s := { s with useInferredDimensions := true }
        let n := nInferred
        let s := setNumberOfDimensions n s
        let s := { s with numComponents := 1, dimensions := storageDims.reverse }
        (s, n)
    let s := step.1
    let nDims := step.2
    if cfg.useSize ∧ cfg.dsSize.length ≠ nDims then
      .error "Invalid size dimension"
    else
    let s := if cfg.useSize then { s with dimensions := cfg.dsSize } else s
    let s := match a.directionsA with
      | some crb => { s with direction := dirUnflatten crb.1 crb.2.1 crb.2.2 }
      | none => s
    let s := match a.originA with
      | some v => { s with origin := v }
      | none => s
    let s := match a.spacingA with
      | some v => { s with spacing := v }
      | none => s
    if cfg.useOffset ∧ cfg.dsOffset.length ≠ nDims then
      .error "Invalid offset dimension"
    else if cfg.useStride ∧ cfg.dsStride.length ≠ nDims then
      .error "Invalid stride dimension"
    else
    let s :=
      if cfg.useStride then
        let sp := List.zipWith (fun q (st : Nat) => q * (st : Rat)) s.spacing
          cfg.dsStride ++ s.spacing.drop cfg.dsStride.length
        let s := { s with spacing := sp }
        if ¬ cfg.useSize then
          let offs := if cfg.useOffset then cfg.dsOffset
            else List.replicate cfg.dsStride.length 0
          let dims := List.zipWith (fun d p => strideDim d p.1 p.2)
            s.dimensions (cfg.dsStride.zip offs)
            ++ s.dimensions.drop cfg.dsStride.length
          { s with dimensions := dims }
        else s
      else s
    .ok s

/-- Projection of the geometry tuple out of the reader's state. -/
def readGeometry (s : ImageState) : Geometry :=
  { dims := s.dimensions, origin := s.origin, spacing := s.spacing,
    direction := s.direction }

/-- Well-formed geometry of dimensionality `n`: origin/spacing of length
`n` and a square `n × n` direction matrix. -/
def Geometry.wf (g : Geometry) : Prop :=
  1 ≤ g.dims.length ∧ g.origin.length = g.dims.length ∧
  g.spacing.length = g.dims.length ∧ g.direction.length = g.dims.length ∧
  ∀ row ∈ g.direction, row.length = g.dims.length

theorem resizeTo_self {α : Type} (d : α) (l : List α) :
    resizeTo d l.length l = l := by
  simp [resizeTo]

theorem zipWith_strideDim_eq (ds : List Nat) (ps : List (Nat × Nat))
    (hb : ∀ d ∈ ds, d < 2 ^ 64)
    (hq : ∀ p ∈ ds.zip ps, 1 < p.2.1 → p.2.2 ≤ p.1 / p.2.1) :
    List.zipWith (fun d p => strideDim d p.1 p.2) ds ps =
      List.zipWith (fun d p => if 1 < p.1 then d / p.1 - p.2 else d) ds ps := by
  induction ds generalizing ps with
  | nil => simp
  | cons d rest ih =>
    cases ps with
    | nil => simp
    | cons p pt =>
      rw [List.zip_cons_cons] at hq
      have hd : d < 2 ^ 64 := hb d (List.mem_cons_self _ _)
      have hdq : 1 < p.1 → p.2 ≤ d / p.1 := fun hlt =>
        hq (d, p) (List.mem_cons_self _ _) hlt
      have hdivle : d / p.1 ≤ d := Nat.div_le_self _ _
      have hhead : strideDim d p.1 p.2 = if 1 < p.1 then d / p.1 - p.2 else d := by
        unfold strideDim sub64
        split
        · next hlt =>
          have hq2 : p.2 ≤ d / p.1 := hdq hlt
          have hlt64 : d / p.1 < 2 ^ 64 := lt_of_le_of_lt hdivle hd
          generalize d / p.1 = q at hq2 hlt64 ⊢
          omega
        · rfl
      simp only [List.zipWith_cons_cons, hhead]
      rw [ih pt (fun x hx => hb x (List.mem_cons_of_mem _ hx))
        (fun x hx => hq x (List.mem_cons_of_mem _ hx))]

/-- C4: for every well-formed geometry tuple of dimensionality 1 through 5
(sizes, origin, spacing, square direction matrix), writing the four
geometry attributes to a dataset and reading them back with no overrides
configured reconstructs a geometry equal to the original, from any prior
reader state. -/
theorem c4_geometry_roundtrip (g : Geometry) (s : ImageState)
    (h : g.wf) (hn : g.dims.length ≤ 5) :
    (readDataSetAttributes
        { useOffset := false, useSize := false, useStride := false,
          dsOffset := [], dsSize := [], dsStride := [] }
        g.dims.reverse .F64 (writeDataSetAttributes g) s).map readGeometry =
      .ok g := by
  obtain ⟨h1, ho, hs, hd, hrows⟩ := h
  have hc : (g.direction.headD []).length = g.dims.length := by
    cases hdir : g.direction with
    | nil => rw [hdir] at hd; simp at hd; omega
    | cons r t =>
      simp only [List.headD_cons]
      exact hrows r (by rw [hdir]; exact List.mem_cons_self _ _)
  have hflat := dirUnflatten_flatten ((g.direction.headD []).length) g.direction
    (fun row hr => by rw [hrows row hr, hc])
  simp only [readDataSetAttributes, writeDataSetAttributes, dirFlatten,
    PredTypeToComponentType, setNumberOfDimensions, List.length_reverse]
  simp only [lt_irrefl, if_false, false_and, if_true, Bool.false_eq_true, ite_false]
  rw [hflat, resizeTo_self]
  rfl

/-- C4 (witness): the geometry round trip at a concrete 2-D geometry. -/
theorem c4_geometry_roundtrip_witness :
    (readDataSetAttributes
        { useOffset := false, useSize := false, useStride := false,
          dsOffset := [], dsSize := [], dsStride := [] }
        ([4, 5] : List Nat).reverse .F64
        (writeDataSetAttributes
          { dims := [4, 5], origin := [1, 2], spacing := [3, 4],
            direction := [[1, 0], [0, 1]] })
        { nDims := 0, dimensions := [], origin := [], spacing := [],
          direction := [], numComponents := 0,
          componentType := .UNKNOWNCOMPONENTTYPE,
          useInferredDimensions := false }).map readGeometry =
      .ok { dims := [4, 5], origin := [1, 2], spacing := [3, 4],
            direction := [[1, 0], [0, 1]] } :=
  c4_geometry_roundtrip
    { dims := [4, 5], origin := [1, 2], spacing := [3, 4],
      direction := [[1, 0], [0, 1]] }
    { nDims := 0, dimensions := [], origin := [], spacing := [],
      direction := [], numComponents := 0,
      componentType := .UNKNOWNCOMPONENTTYPE, useInferredDimensions := false }
    (by refine ⟨by decide, rfl, rfl, rfl, ?_⟩; decide) (by decide)

/-- C5: when a stride override is configured with no size override,
spacing on every axis is multiplied by that axis's stride, and every axis
whose stride exceeds one has its size recomputed as
`floor(storageSize / stride) - offset`, the offset taken from the offset
override when configured and 0 otherwise; axes with stride ≤ 1 keep their
size.  Stated on the inference read path (no `Dimension` attribute), where
the per-axis starting size is exactly the storage size; the bound
hypotheses say the sizes are `hsize_t` values and the subtraction does not
underflow, so the unsigned arithmetic agrees with the claim's formula. -/
theorem c5_stride_override (sd : List Nat) (sp : List Rat)
    (stride offs : List Nat) (uo : Bool) (s : ImageState)
    (hst : stride.length = sd.length) (hsp : sp.length = sd.length)
    (hoff : uo = true → offs.length = sd.length)
    (hb : ∀ d ∈ sd, d < 2 ^ 64)
    (hq : ∀ p ∈ sd.reverse.zip
        (stride.zip (if uo then offs else List.replicate stride.length 0)),
      1 < p.2.1 → p.2.2 ≤ p.1 / p.2.1) :
    (readDataSetAttributes
        { useOffset := uo, useSize := false, useStride := true,
          dsOffset := offs, dsSize := [], dsStride := stride }
        sd .F64
        { dimsA := none, originA := none, spacingA := some sp,
          directionsA := none }
        s).map (fun st => (st.dimensions, st.spacing)) =
      .ok (List.zipWith (fun d p => if 1 < p.1 then d / p.1 - p.2 else d)
          sd.reverse
          (stride.zip (if uo then offs else List.replicate stride.length 0)),
        List.zipWith (fun q (st : Nat) => q * (st : Rat)) sp stride) := by
  have hb2 : ∀ d ∈ sd.reverse, d < 2 ^ 64 := fun d hd => hb d (List.mem_reverse.mp hd)
  have hdropsp : sp.drop sd.length = [] :=
    List.drop_eq_nil_of_le (le_of_eq hsp)
  have hdropd : sd.reverse.drop sd.length = [] :=
    List.drop_eq_nil_of_le (by simp)
  cases uo with
  | false =>
    simp only [if_false, ite_false, Bool.false_eq_true] at hq ⊢
    simp only [readDataSetAttributes, PredTypeToComponentType, setNumberOfDimensions]
    simp only [Bool.false_eq_true, false_and, if_false, ite_false, if_true, not_false_iff]
    simp only [hst, ne_eq, not_true_eq_false, false_and, if_false, ite_false]
    simp only [true_and, and_false, if_false, ite_false]
    simp only [hdropsp, hdropd, List.append_nil, Except.map]
    rw [zipWith_strideDim_eq _ _ hb2 (by rw [hst] at hq; exact hq)]
  | true =>
    have hoffl := hoff rfl
    simp only [if_true, ite_true] at hq ⊢
    simp only [readDataSetAttributes, PredTypeToComponentType, setNumberOfDimensions]
    simp only [Bool.false_eq_true, false_and, if_false, ite_false, if_true, not_false_iff]
    simp only [hst, hoffl, ne_eq, not_true_eq_false, false_and, if_false, ite_false,
      and_false, true_and]
    simp only [hdropsp, hdropd, List.append_nil, Except.map]
    rw [zipWith_strideDim_eq _ _ hb2 hq]

/-- C5 (witness): stride `[2,2,2]`, no explicit size, storage size
`[100,100,100]`, no offset override: the computed size is `[50,50,50]` and
the spacing `[1,1,1]` is doubled on every axis. -/
theorem c5_stride_override_witness :
    (readDataSetAttributes
        { useOffset := false, useSize := false, useStride := true,
          dsOffset := [], dsSize := [], dsStride := [2, 2, 2] }
        [100, 100, 100] .F64
        { dimsA := none, originA := none, spacingA := some [1, 1, 1],
          directionsA := none }
        { nDims := 0, dimensions := [], origin := [], spacing := [],
          direction := [], numComponents := 0,
          componentType := .UNKNOWNCOMPONENTTYPE,
          useInferredDimensions := false }).map
        (fun st => (st.dimensions, st.spacing)) =
      .ok ([50, 50, 50], [2, 2, 2]) := by
  have h := c5_stride_override [100, 100, 100] [1, 1, 1] [2, 2, 2] [] false
    { nDims := 0, dimensions := [], origin := [], spacing := [],
      direction := [], numComponents := 0,
      componentType := .UNKNOWNCOMPONENTTYPE, useInferredDimensions := false }
    rfl rfl (by simp) (by decide) (by decide)
  simpa using h

/-! ### Container lifecycle: probe, read entry point, write-once latch
(`CanReadFile` cxx:770-801, `CloseH5File` cxx:803-812,
`ReadImageInformation` cxx:814-874, `WriteImageInformation`
cxx:1553-1661) -/

/-- What the filesystem and the HDF5 library report about a candidate
file: whether it exists, the `H5Fis_hdf5` probe result (`htri_t`: positive
= yes, zero = no, negative = error/indeterminate), and whether the
read-only `H5File` constructor throws on it. -/
structure FileProbe where
  fileOk : Bool
  ishdf5 : Int
  openRaises : Bool

/-- The `try` body of `CanReadFile`: probe, early `return false` when the
probe is non-positive, then the read-only open (the only throwing step).
An exception is an `.error`. -/
def canReadFileBody (p : FileProbe) : Except String Bool :=
  if p.ishdf5 ≤ 0 then .ok false
  else if p.openRaises then .error "open failed"
  else .ok true

/-- `CanReadFile` (cxx:770-801): false for a missing file; otherwise the
try body's result, with any exception swallowed by `catch (...)` into
`rval = false`.  Total: no error escapes. -/
def canReadFile (p : FileProbe) : Bool :=
  if !p.fileOk then false
  else
    match canReadFileBody p with
    | .ok b => b
    | .error _ => false

/-- C8: `CanReadFile` returns false, and never raises (the model is a
total boolean function whose try body's every `.error` is caught), for a
nonexistent file, for a non-positive (negative or indeterminate)
format-signature probe, and for a file whose read-only open raises. -/
theorem c8_canread_false (p : FileProbe) :
    (p.fileOk = false → canReadFile p = false) ∧
    (p.ishdf5 ≤ 0 → canReadFile p = false) ∧
    (p.openRaises = true → canReadFile p = false) := by
  refine ⟨fun h => by simp [canReadFile, h], fun h => ?_, fun h => ?_⟩
  · simp only [canReadFile, canReadFileBody, if_pos h]
    cases p.fileOk <;> simp
  · simp only [canReadFile, canReadFileBody, h]
    cases p.fileOk
    · simp
    · rcases le_or_lt p.ishdf5 0 with hp | hp
      · simp [hp]
      · simp [hp.not_le]

/-- C8 (witness): a nonexistent, non-HDF5, unopenable file probes false on
all three grounds. -/
theorem c8_canread_false_witness :
    canReadFile { fileOk := false, ishdf5 := 0, openRaises := true } = false :=
  (c8_canread_false { fileOk := false, ishdf5 := 0, openRaises := true }).1 rfl

/-- The outcome of the operations `ReadImageInformation` attempts, in
order: the read-only `H5File` constructor, the `GetPathExists` check, the
`openDataSet` call, the attribute reads, and (when `m_UseMetaData`) the
`ITKMetaData` group existence check and the metadata read. -/
structure ReadEnv where
  openOk : Bool
  pathOk : Bool
  datasetOk : Bool
  attrsOk : Bool
  useMetaData : Bool
  metaGroupOk : Bool
  metaReadOk : Bool

/-- The reader's handle state: whether `m_H5File` currently owns an open
container. -/
structure ReaderState where
  h5Open : Bool
deriving DecidableEq, Repr

/-- `CloseH5File` (cxx:803-812): closes and clears the handle if one is
open; also the destructor's action. -/
def closeH5File (_ : ReaderState) : ReaderState := { h5Open := false }

/-- `ReadImageInformation` (cxx:814-874): closes any previous handle,
opens the file read-only, and runs the checks/reads in source order.
Every failure path — the `itkExceptionMacro` calls and the `catch`
clauses that re-raise H5 exceptions as ITK exceptions — surfaces the
error (`some msg`) without touching the handle again: none of them calls
`CloseH5File`.  The returned state is the object's state when the error
escapes. -/
def readImageInformation (e : ReadEnv) (s : ReaderState) :
    ReaderState × Option String :=
  let s0 := closeH5File s
  if !e.openOk then (s0, some "file open failed")
  else
    let s1 : ReaderState := { h5Open := true }
    if !e.pathOk then (s1, some "path does not exist")
    else if !e.datasetOk then (s1, some "dataset open failed")
    else if !e.attrsOk then (s1, some "attribute read failed")
    else if e.useMetaData then
      if !e.metaGroupOk then (s1, some "ITKMetaData does not exist")
      else if !e.metaReadOk then (s1, some "metadata read failed")
      else (s1, none)
    else (s1, none)

/-- C6 (counterexample): the claim fails as stated.  With the container
open succeeding but the configured path absent, `ReadImageInformation`
raises a domain error while the container handle is still open — it is
not closed before the error surfaces. -/
theorem c6_counterexample :
    (readImageInformation
        { openOk := true, pathOk := false, datasetOk := true, attrsOk := true,
          useMetaData := false, metaGroupOk := true, metaReadOk := true }
        { h5Open := false }).2.isSome = true ∧
    (readImageInformation
        { openOk := true, pathOk := false, datasetOk := true, attrsOk := true,
          useMetaData := false, metaGroupOk := true, metaReadOk := true }
        { h5Open := false }).1.h5Open = true :=
  ⟨rfl, rfl⟩

/-- C6 (amended): when a read fails with a domain error, the handle is
exactly as the failing step left it — open whenever the initial read-only
open succeeded (only an open failure leaves it closed).  It is closed
later, by the start of the next operation or by the destructor
(`closeH5File`), never before the error surfaces. -/
theorem c6_handle_state_on_error (e : ReadEnv) (s : ReaderState)
    (h : (readImageInformation e s).2.isSome = true) :
    (readImageInformation e s).1.h5Open = e.openOk ∧
    (closeH5File (readImageInformation e s).1).h5Open = false := by
  refine ⟨?_, rfl⟩
  rcases e with ⟨eo, po, dso, ao, um, mg, mr⟩
  cases eo <;> cases po <;> cases dso <;> cases ao <;> cases um <;>
    cases mg <;> cases mr <;> simp_all [readImageInformation, closeH5File]

/-- C6 (witness): the amended statement at the counterexample's input. -/
theorem c6_handle_state_on_error_witness :
    (readImageInformation
        { openOk := true, pathOk := false, datasetOk := true, attrsOk := true,
          useMetaData := false, metaGroupOk := true, metaReadOk := true }
        { h5Open := false }).1.h5Open = true ∧
    (closeH5File (readImageInformation
        { openOk := true, pathOk := false, datasetOk := true, attrsOk := true,
          useMetaData := false, metaGroupOk := true, metaReadOk := true }
        { h5Open := false }).1).h5Open = false :=
  c6_handle_state_on_error
    { openOk := true, pathOk := false, datasetOk := true, attrsOk := true,
      useMetaData := false, metaGroupOk := true, metaReadOk := true }
    { h5Open := false } rfl

/-- The outcome of the operations `WriteImageInformation` attempts, in
order: opening/creating the file (`GetH5File`), resolving/creating the
group, the two overwrite checks against existing names, the dataset
creation, and (when `m_UseMetaData`) the metadata write. -/
structure WriteEnv where
  openOk : Bool
  groupOk : Bool
  datasetNameTaken : Bool
  metaNameTaken : Bool
  overwrite : Bool
  createOk : Bool
  useMetaData : Bool
  metaWriteOk : Bool

/-- The writer's observable state: the handle, the
`m_ImageInformationWritten` latch, and counters of the underlying
geometry-attribute (`WriteDataSetAttributes`) and metadata
(`WriteImageMetaData`) write operations actually performed. -/
structure WriterState where
  h5Open : Bool
  imageInformationWritten : Bool
  attrWrites : Nat
  metaWrites : Nat
deriving DecidableEq, Repr

/-- `WriteImageInformation` (cxx:1553-1661): returns immediately when the
latch is set; otherwise closes any open handle, opens/creates the file,
runs the group and overwrite checks, creates the dataset, writes the
geometry attributes (counted), optionally writes the metadata (counted),
and sets the latch — the latch assignment at the function's end is
reached only when no exception was raised. -/
def writeImageInformation (e : WriteEnv) (s : WriterState) :
    WriterState × Option String :=
  if s.imageInformationWritten then (s, none)
  else
    let s1 : WriterState := { s with h5Open := false }
    if !e.openOk then (s1, some "file open failed")
    else
      let s2 : WriterState := { s1 with h5Open := true }
      if !e.groupOk then (s2, some "group resolution failed")
      else if !e.overwrite && e.datasetNameTaken then
        (s2, some "DataSet already exists")
      else if !e.overwrite && e.metaNameTaken then
        (s2, some "ITKMetaData already exists")
      else if !e.createOk then (s2, some "createDataSet failed")
      else
        let s3 : WriterState := { s2 with attrWrites := s2.attrWrites + 1 }
        if e.useMetaData then
          if !e.metaWriteOk then (s3, some "metadata write failed")
          else
            ({ s3 with
                metaWrites := s3.metaWrites + 1
                imageInformationWritten := true }, none)
        else ({ s3 with imageInformationWritten := true }, none)

/-- C7: once a call to `WriteImageInformation` has returned normally, the
latch is set, so a second call — under any environment — returns the
state completely unchanged (in particular the attribute/metadata write
counters do not move: no underlying write is performed) and raises no
error. -/
theorem c7_write_once (e e2 : WriteEnv) (s : WriterState)
    (h : (writeImageInformation e s).2 = none) :
    writeImageInformation e2 (writeImageInformation e s).1 =
      ((writeImageInformation e s).1, none) := by
  have hlatch : (writeImageInformation e s).1.imageInformationWritten = true := by
    by_cases hw : s.imageInformationWritten
    · simp [writeImageInformation, hw]
    · rcases e with ⟨oo, go, dt, mt, ov, co, um, mw⟩
      cases oo <;> cases go <;> cases dt <;> cases mt <;> cases ov <;>
        cases co <;> cases um <;> cases mw <;>
          simp_all [writeImageInformation]
  rw [writeImageInformation, if_pos hlatch]

/-- C7 (witness): a successful first write (fresh file, no collisions,
metadata enabled) followed by a second call: the second call changes
nothing and performs no write. -/
theorem c7_write_once_witness :
    writeImageInformation
        { openOk := true, groupOk := true, datasetNameTaken := false,
          metaNameTaken := false, overwrite := false, createOk := true,
          useMetaData := true, metaWriteOk := true }
        (writeImageInformation
          { openOk := true, groupOk := true, datasetNameTaken := false,
            metaNameTaken := false, overwrite := false, createOk := true,
            useMetaData := true, metaWriteOk := true }
          { h5Open := false, imageInformationWritten := false,
            attrWrites := 0, metaWrites := 0 }).1 =
      ((writeImageInformation
          { openOk := true, groupOk := true, datasetNameTaken := false,
            metaNameTaken := false, overwrite := false, createOk := true,
            useMetaData := true, metaWriteOk := true }
          { h5Open := false, imageInformationWritten := false,
            attrWrites := 0, metaWrites := 0 }).1, none) :=
  c7_write_once
    { openOk := true, groupOk := true, datasetNameTaken := false,
      metaNameTaken := false, overwrite := false, createOk := true,
      useMetaData := true, metaWriteOk := true }
    { openOk := true, groupOk := true, datasetNameTaken := false,
      metaNameTaken := false, overwrite := false, createOk := true,
      useMetaData := true, metaWriteOk := true }
    { h5Open := false, imageInformationWritten := false,
      attrWrites := 0, metaWrites := 0 }
    rfl

/-- C9 (counterexample): the claim fails as stated.  `LONGLONG` is in the
supported set (`ComponentToPredType` succeeds on it), but its storage
type — `NATIVE_LLONG`, content-equal to `NATIVE_LONG` on LP64 — maps back
through `PredTypeToComponentType` to `LONG`, not `LONGLONG`. -/
theorem c9_counterexample :
    (ComponentToPredType .LONGLONG).bind PredTypeToComponentType =
      some .LONG ∧
    IOComponentEnum.LONG ≠ IOComponentEnum.LONGLONG := by
  exact ⟨rfl, by decide⟩

/-- C9 (amended): mapping a supported component kind to its storage type
and back is the identity for every kind except `LONGLONG` and
`ULONGLONG`, which come back as `LONG` resp. `ULONG` (on LP64 the 64-bit
kinds share one storage type, and the decoding cascade checks the `long`
types first); `ComponentToPredType` fails exactly on `LDOUBLE` and
`UNKNOWNCOMPONENTTYPE`; `PredTypeToComponentType` fails on every storage
type outside the fixed numeric set (the string type). -/
theorem c9_type_mapping :
    (∀ k : IOComponentEnum,
      k ≠ .LONGLONG → k ≠ .ULONGLONG → k ≠ .LDOUBLE →
      k ≠ .UNKNOWNCOMPONENTTYPE →
      (ComponentToPredType k).bind PredTypeToComponentType = some k) ∧
    (ComponentToPredType .LONGLONG).bind PredTypeToComponentType =
      some .LONG ∧
    (ComponentToPredType .ULONGLONG).bind PredTypeToComponentType =
      some .ULONG ∧
    ComponentToPredType .LDOUBLE = none ∧
    ComponentToPredType .UNKNOWNCOMPONENTTYPE = none ∧
    PredTypeToComponentType .Str = none := by
  refine ⟨fun k h1 h2 h3 h4 => ?_, rfl, rfl, rfl, rfl, rfl⟩
  cases k <;> first | rfl | simp_all

/-- C9 (witness): the identity round trip at the concrete kind `SHORT`
(the amended theorem's quantified part applied with its disequality
hypotheses discharged). -/
theorem c9_type_mapping_witness :
    (ComponentToPredType .SHORT).bind PredTypeToComponentType =
      some .SHORT :=
  c9_type_mapping.1 .SHORT (by decide) (by decide) (by decide) (by decide)

end HDF5Container
